import Mathlib

/-!
Shallow embedding of the bank-integration core of the Qualify-2026 backend:
`src/services/encryption.js` (EncryptionService) and
`src/services/interBank.js` (InterBankService: token cache, OAuth token
exchange, mTLS agent construction, PIX charge creation and query).

JavaScript semantics are modelled as follows:
* optional / possibly-`undefined` fields become `Option`;
* string truthiness (`if (s)`) becomes "is `some` of a non-empty string";
* numeric truthiness (`n || d`) becomes "`d` when the value is absent or 0";
* the mutable `tokenCache` Map becomes an association list threaded
  explicitly through each operation;
* network I/O (axios) becomes oracle functions passed as parameters; every
  operation additionally returns the list of requests it issued, so that
  "no network call" and "exactly one retry" are statements about that list;
* thrown `Error(msg)` becomes `Except.error msg` carrying the same message;
* the external crypto-js AES primitive (a library dependency, not code of
  this repository) is a parameter `Crypto`; `EncryptionService` itself is
  embedded faithfully on top of it;
* JS `Number` amounts are modelled as `Rat`; `toFixed(2)` is modelled as
  round-half-up to two decimals (no claim depends on float rounding).
-/

namespace Qualify

/-- The external crypto-js AES primitive (key, plaintext / ciphertext).
`aesDecrypt` returns `none` where the library would throw. -/
structure Crypto where
  aesEncrypt : String → String → String
  aesDecrypt : String → String → Option String

/-- `src/services/encryption.js`: the service holds `process.env.ENCRYPTION_KEY`,
which may be unset. -/
structure EncryptionService where
  key : Option String

/-- `encrypt(value)`: passthrough when no key is configured, AES otherwise. -/
def EncryptionService.encrypt (c : Crypto) (svc : EncryptionService) (value : String) : String :=
  match svc.key with
  | none => value
  | some k => c.aesEncrypt k value

/-- `decrypt(encryptedValue)`: passthrough when no key; otherwise AES-decrypt,
returning `none` (JS `null`) when the library throws. -/
def EncryptionService.decrypt (c : Crypto) (svc : EncryptionService) (encryptedValue : String) :
    Option String :=
  match svc.key with
  | none => some encryptedValue
  | some k =>
    match c.aesDecrypt k encryptedValue with
    | some s => some s
    | none => none

/-- `isConfigured()`. -/
def EncryptionService.isConfigured (svc : EncryptionService) : Bool :=
  svc.key.isSome

/-- JS truthiness of an optional string field: present and non-empty. -/
def truthyS (o : Option String) : Bool :=
  match o with
  | none => false
  | some s => !s.isEmpty

/-- `x || d` for an optional string (JS `undefined` and `""` are falsy). -/
def orDefaultS (o : Option String) (d : String) : String :=
  match o with
  | none => d
  | some s => if s.isEmpty then d else s

/-- `n || d` for an optional number (JS `undefined` and `0` are falsy). -/
def orDefaultZ (o : Option Int) (d : Int) : Int :=
  match o with
  | none => d
  | some n => if n = 0 then d else n

/-- JS `String.prototype.trim()`: strips leading and trailing whitespace. -/
def jsTrim (s : String) : String :=
  String.mk
    (List.reverse
      (List.dropWhile Char.isWhitespace
        (List.reverse (List.dropWhile Char.isWhitespace s.data))))

/-- A Node `Buffer` value, kept symbolic: either `Buffer.from(s, 'base64')`
or `Buffer.from(s, 'utf8')`. -/
inductive BufferVal where
  | fromBase64 (s : String)
  | fromUtf8 (s : String)
deriving DecidableEq, Repr

/-- Certificate material as handed to `createHttpsAgent`: already a Buffer,
or a plain string (from `fs.readFileSync(..., 'utf8')`). -/
inductive CertInput where
  | buffer (b : BufferVal)
  | str (s : String)
deriving DecidableEq, Repr

/-- `Buffer.isBuffer(content) ? content : Buffer.from(content, 'utf8')`. -/
def toBuffer : CertInput → BufferVal
  | .buffer b => b
  | .str s => .fromUtf8 s

/-- The `https.Agent` options constructed by `createHttpsAgent`. -/
structure HttpsAgent where
  cert : BufferVal
  key : BufferVal
  rejectUnauthorized : Bool
  pfx : Option Unit
deriving DecidableEq, Repr

/-- `createHttpsAgent(certContent, keyContent)`: coerces both inputs to
Buffers and builds the agent with `rejectUnauthorized: false` and no pfx. -/
def createHttpsAgent (certContent keyContent : CertInput) : HttpsAgent :=
  { cert := toBuffer certContent
    key := toBuffer keyContent
    rejectUnauthorized := false
    pfx := none }

/-- The per-tenant bank configuration document (`empresaConfig`). -/
structure EmpresaConfig where
  id : String
  clientId : String
  clientSecret : String
  chavePix : String
  sandbox : Bool
  certBase64 : Option String
  keyBase64 : Option String
  certPath : Option String
  keyPath : Option String
deriving DecidableEq, Repr

/-- One cached token: `{ accessToken, expiresAt }` (epoch millis). -/
structure CachedToken where
  accessToken : String
  expiresAt : Int
deriving DecidableEq, Repr

/-- The `tokenCache` Map, keyed by `empresaId`, as an association list. -/
def TokenCache : Type := List (String × CachedToken)

/-- `tokenCache.get(k)`. -/
def cacheGet (m : TokenCache) (k : String) : Option CachedToken :=
  (List.find? (fun p => p.1 == k) m).map Prod.snd

/-- `tokenCache.set(k, v)`. -/
def cacheSet (m : TokenCache) (k : String) (v : CachedToken) : TokenCache :=
  (k, v) :: List.filter (fun p => p.1 != k) m

/-- `tokenCache.delete(k)`. -/
def cacheDelete (m : TokenCache) (k : String) : TokenCache :=
  List.filter (fun p => p.1 != k) m

/-- `limparCache(empresaId)`: evicts that tenant's token. -/
def limparCache (m : TokenCache) (empresaId : String) : TokenCache :=
  cacheDelete m empresaId

/-- The service's base-URL configuration (constructor fields). -/
structure InterBankService where
  baseUrlSandbox : String
  baseUrlProduction : String
deriving DecidableEq, Repr

/-- `getBaseUrl(sandbox)`. -/
def getBaseUrl (svc : InterBankService) (sandbox : Bool) : String :=
  if sandbox then svc.baseUrlSandbox else svc.baseUrlProduction

/-- Static environment of a call: crypto primitive, encryption service,
base URLs, the file system (`fs.readFileSync` on cert paths) and the
current clock (`Date.now()`, epoch millis). -/
structure Env where
  crypto : Crypto
  enc : EncryptionService
  svc : InterBankService
  fs : String → String
  now : Int

/-- `decryptCredential(encryptedValue)`: passthrough when encryption is off;
otherwise decrypt, falling back to the original value when the result is
null/empty or the decryption threw. -/
def decryptCredential (env : Env) (encryptedValue : String) : String :=
  if env.enc.isConfigured = false then
    encryptedValue
  else
    match EncryptionService.decrypt env.crypto env.enc encryptedValue with
    | some d => if d.isEmpty then encryptedValue else d
    | none => encryptedValue

/-- The OAuth token request issued by `getAccessToken`: URL, the four
form-encoded parameters and the mTLS agent. -/
structure TokenExchangeReq where
  url : String
  client_id : String
  client_secret : String
  grant_type : String
  scope : String
  agent : HttpsAgent
deriving DecidableEq, Repr

/-- The bank's answer to a token request: `{ access_token, expires_in }`
on success, or the resolved error description of a thrown axios error. -/
inductive TokenResp where
  | success (access_token : String) (expires_in : Int)
  | failure (description : String)
deriving DecidableEq, Repr

/-- Result of one `getAccessToken` call: the returned token (or the thrown
error message), the token cache afterwards, and the list of token-exchange
requests actually sent over the network. -/
structure TokenOutcome where
  result : Except String String
  cache : TokenCache
  exchanges : List TokenExchangeReq

/-- The request-building part of `getAccessToken`'s try-block: decrypts and
trims the credentials, resolves certificate material (inline base64 pair
first, then the tenant's local cert files, else the missing-certificates
error), builds the mTLS agent and the form parameters. -/
def tokenRequest (env : Env) (cfg : EmpresaConfig) : Except String TokenExchangeReq :=
  let clientId := decryptCredential env cfg.clientId
  let clientSecret := decryptCredential env cfg.clientSecret
  let certs : Except String (CertInput × CertInput) :=
    if truthyS cfg.certBase64 && truthyS cfg.keyBase64 then
      .ok (.buffer (.fromBase64 (cfg.certBase64.getD "")),
           .buffer (.fromBase64 (cfg.keyBase64.getD "")))
    else if truthyS cfg.certPath && truthyS cfg.keyPath then
      .ok (.str (env.fs ("certs/" ++ cfg.id ++ "/cert.crt")),
           .str (env.fs ("certs/" ++ cfg.id ++ "/cert.key")))
    else
      .error "Certificados não configurados para esta empresa"
  match certs with
  | .error m => .error m
  | .ok (certContent, keyContent) =>
    let httpsAgent := createHttpsAgent certContent keyContent
    let baseUrl := getBaseUrl env.svc cfg.sandbox
    .ok { url := baseUrl ++ "/oauth/v2/token"
          client_id := jsTrim clientId
          client_secret := jsTrim clientSecret
          grant_type := "client_credentials"
          scope := "cob.write cob.read"
          agent := httpsAgent }

/-- The try/catch body of `getAccessToken` past the cache check: build the
request, send it, cache `{accessToken, expiresAt = now + (expires_in-60)s}`
on success; every thrown error is re-thrown wrapped in the authentication
failure message. -/
def tokenExchangeCore (env : Env) (bank : TokenExchangeReq → TokenResp)
    (cache : TokenCache) (cfg : EmpresaConfig) : TokenOutcome :=
  match tokenRequest env cfg with
  | .error m =>
    { result := .error ("Falha na autenticação com Banco Inter: " ++ m)
      cache := cache
      exchanges := [] }
  | .ok req =>
    match bank req with
    | .success access_token expires_in =>
      { result := .ok access_token
        cache := cacheSet cache cfg.id
          { accessToken := access_token
            expiresAt := env.now + (expires_in - 60) * 1000 }
        exchanges := [req] }
    | .failure description =>
      { result := .error ("Falha na autenticação com Banco Inter: " ++ description)
        cache := cache
        exchanges := [req] }

/-- `getAccessToken(empresaConfig)`: serve from cache while
`cached.expiresAt > Date.now()`, otherwise perform the exchange. -/
def getAccessToken (env : Env) (bank : TokenExchangeReq → TokenResp)
    (cache : TokenCache) (cfg : EmpresaConfig) : TokenOutcome :=
  match cacheGet cache cfg.id with
  | some cached =>
    if cached.expiresAt > env.now then
      { result := .ok cached.accessToken, cache := cache, exchanges := [] }
    else
      tokenExchangeCore env bank cache cfg
  | none => tokenExchangeCore env bank cache cfg

/-- A payer's address (`dados.pagador.endereco`). -/
structure Endereco where
  logradouro : Option String
  cidade : Option String
  uf : Option String
  cep : Option String
deriving DecidableEq, Repr

/-- A payer (`dados.pagador`). -/
structure Pagador where
  nome : String
  cpf : Option String
  cnpj : Option String
  endereco : Option Endereco
deriving DecidableEq, Repr

/-- Charge-request data (`dados`): amount, expiry, payer, description and,
for due-date charges, the due date and post-due validity window. -/
structure DadosPix where
  valor : Rat
  expiracao : Option Int
  pagador : Pagador
  descricao : Option String
  vencimento : Option String
  diasAposVencimento : Option Int
deriving DecidableEq, Repr

/-- Drops every character outside 0-9 (JS `.replace(/\D/g, '')`). -/
def stripNonDigits (s : String) : String :=
  String.mk (List.filter Char.isDigit s.data)

/-- `valor.toFixed(2)` modelled over `Rat`: round half up to two decimals
and print with exactly two fraction digits. -/
def toFixed2 (x : Rat) : String :=
  let n : Int := Int.fdiv (x * 100 + 1 / 2).num (x * 100 + 1 / 2).den
  let m : Nat := n.natAbs
  let sign := if n < 0 then "-" else ""
  let frac := m % 100
  sign ++ toString (m / 100) ++ "." ++
    (if frac < 10 then "0" ++ toString frac else toString frac)

/-- The `devedor` object of a charge payload. -/
structure Devedor where
  cpf : Option String
  nome : String
  cnpj : Option String
  logradouro : Option String
  cidade : Option String
  uf : Option String
  cep : Option String
deriving DecidableEq, Repr

/-- The debtor block shared by both charge payloads: optional CPF stripped
of non-digits, then the address block (immediate charges only), then the
CNPJ override (`if (dados.pagador.cnpj) { delete cpf; set cnpj }`). -/
def montarDevedor (pagador : Pagador) (comEndereco : Bool) : Devedor :=
  let base : Devedor :=
    { cpf := pagador.cpf.map stripNonDigits
      nome := pagador.nome
      cnpj := none
      logradouro := none
      cidade := none
      uf := none
      cep := none }
  let comEnd :=
    if comEndereco then
      match pagador.endereco with
      | some e =>
        { base with
          logradouro := some (orDefaultS e.logradouro "")
          cidade := some (orDefaultS e.cidade "")
          uf := some (orDefaultS e.uf "")
          cep := some (orDefaultS (e.cep.map stripNonDigits) "") }
      | none => base
    else base
  match pagador.cnpj with
  | some c =>
    if c.isEmpty then comEnd
    else { comEnd with cpf := none, cnpj := some (stripNonDigits c) }
  | none => comEnd

/-- Payload of `criarPixImediato` (PUT `/pix/v2/cob/{txid}`). -/
structure PayloadImediato where
  expiracao : Int
  devedor : Devedor
  valorOriginal : String
  chave : String
  solicitacaoPagador : String
deriving DecidableEq, Repr

/-- Builds the immediate-charge payload from the config and request data. -/
def montarPayloadImediato (cfg : EmpresaConfig) (dados : DadosPix) : PayloadImediato :=
  { expiracao := orDefaultZ dados.expiracao 3600
    devedor := montarDevedor dados.pagador true
    valorOriginal := toFixed2 dados.valor
    chave := cfg.chavePix
    solicitacaoPagador := orDefaultS dados.descricao "Cobrança QUALIFY" }

/-- Payload of `criarPixVencimento` (PUT `/pix/v2/cobv/{txid}`); no address
block is ever added here. -/
structure PayloadVencimento where
  dataDeVencimento : Option String
  validadeAposVencimento : Int
  devedor : Devedor
  valorOriginal : String
  chave : String
  solicitacaoPagador : String
deriving DecidableEq, Repr

/-- Builds the due-date-charge payload from the config and request data. -/
def montarPayloadVencimento (cfg : EmpresaConfig) (dados : DadosPix) : PayloadVencimento :=
  { dataDeVencimento := dados.vencimento
    validadeAposVencimento := orDefaultZ dados.diasAposVencimento 30
    devedor := montarDevedor dados.pagador false
    valorOriginal := toFixed2 dados.valor
    chave := cfg.chavePix
    solicitacaoPagador := orDefaultS dados.descricao "Cobrança QUALIFY" }

/-- Body of a charge-API request: a cob payload, a cobv payload, or none
(the GET of `consultarPix`). -/
inductive ReqBody where
  | imediato (p : PayloadImediato)
  | vencimento (p : PayloadVencimento)
  | nenhum
deriving DecidableEq, Repr

/-- One HTTP request to the charge API: URL, body, bearer token, agent. -/
structure ChargeAttempt where
  url : String
  body : ReqBody
  token : String
  agent : HttpsAgent
deriving DecidableEq, Repr

/-- The bank's charge-API response body as read by the service. -/
structure CobrancaResp where
  txid : String
  status : String
  pixCopiaECola : Option String
  imagemQrcode : Option String
  valorOriginal : Option String
  criacao : Option String
  expiracao : Option Int
  dataDeVencimento : Option String
  pix : Option (List String)
deriving DecidableEq, Repr

/-- Outcome of one charge-API call: success with a body, or a thrown axios
error with `error.response?.status` (`none` = no response) and the resolved
`detail || message` string. -/
inductive HttpResp where
  | ok (data : CobrancaResp)
  | err (status : Option Int) (detail : String)
deriving DecidableEq, Repr

/-- The object returned by `criarPixImediato` / `criarPixVencimento`. -/
structure PixResult where
  txid : String
  status : String
  qrcode : Option String
  imagemQrcode : Option String
  valor : Option String
  criacao : Option String
  expiracao : Option Int
  vencimento : Option String
deriving DecidableEq, Repr

/-- Maps a cob response to the returned object (immediate charge). -/
def mapCobranca (c : CobrancaResp) : PixResult :=
  { txid := c.txid
    status := c.status
    qrcode := c.pixCopiaECola
    imagemQrcode :=
      match c.imagemQrcode with
      | some s => if s.isEmpty then none else some ("data:image/png;base64," ++ s)
      | none => none
    valor := c.valorOriginal
    criacao := c.criacao
    expiracao := c.expiracao
    vencimento := none }

/-- Maps a cobv response to the returned object (due-date charge). -/
def mapCobrancaVencimento (c : CobrancaResp) : PixResult :=
  { txid := c.txid
    status := c.status
    qrcode := c.pixCopiaECola
    imagemQrcode :=
      match c.imagemQrcode with
      | some s => if s.isEmpty then none else some ("data:image/png;base64," ++ s)
      | none => none
    valor := c.valorOriginal
    criacao := none
    expiracao := none
    vencimento := c.dataDeVencimento }

/-- Result of one charge operation: the returned object (or thrown error
message), the token cache afterwards, the token exchanges sent, and the
charge-API requests sent. -/
structure ChargeOutcome (α : Type) where
  result : Except String α
  cache : TokenCache
  tokenExchanges : List TokenExchangeReq
  chargeAttempts : List ChargeAttempt

/-- `criarPixImediato(empresaConfig, dados)`: token via `getAccessToken`,
then inline-base64 certificates only (throws the missing-certificates error
otherwise), one PUT to `/pix/v2/cob/{txid}`; on a 401 response it clears the
tenant's cached token, fetches a fresh token and retries the identical
request once, surfacing a second failure with the após-retry message.
`tokenBank n` / `chargeBank n` answer the (n+1)-th token exchange / charge
request of this call; `txid` stands for the random `gerarTxId()` output. -/
def criarPixImediato (env : Env) (tokenBank : Nat → TokenExchangeReq → TokenResp)
    (chargeBank : Nat → ChargeAttempt → HttpResp) (txid : String)
    (cache : TokenCache) (cfg : EmpresaConfig) (dados : DadosPix) :
    ChargeOutcome PixResult :=
  let t0 := getAccessToken env (tokenBank 0) cache cfg
  match t0.result with
  | .error e =>
    { result := .error e, cache := t0.cache
      tokenExchanges := t0.exchanges, chargeAttempts := [] }
  | .ok accessToken =>
    if truthyS cfg.certBase64 && truthyS cfg.keyBase64 then
      let certContent : CertInput := .buffer (.fromBase64 (cfg.certBase64.getD ""))
      let keyContent : CertInput := .buffer (.fromBase64 (cfg.keyBase64.getD ""))
      let httpsAgent := createHttpsAgent certContent keyContent
      let url := getBaseUrl env.svc cfg.sandbox ++ "/pix/v2/cob/" ++ txid
      let payload := montarPayloadImediato cfg dados
      let attempt0 : ChargeAttempt :=
        { url := url, body := .imediato payload, token := accessToken, agent := httpsAgent }
      match chargeBank 0 attempt0 with
      | .ok cob =>
        { result := .ok (mapCobranca cob), cache := t0.cache
          tokenExchanges := t0.exchanges, chargeAttempts := [attempt0] }
      | .err status detail =>
        if status = some 401 then
          let cache2 := limparCache t0.cache cfg.id
          let t1 := getAccessToken env (tokenBank 1) cache2 cfg
          match t1.result with
          | .error e =>
            { result := .error e, cache := t1.cache
              tokenExchanges := t0.exchanges ++ t1.exchanges
              chargeAttempts := [attempt0] }
          | .ok novoToken =>
            let attempt1 : ChargeAttempt := { attempt0 with token := novoToken }
            match chargeBank 1 attempt1 with
            | .ok cob =>
              { result := .ok (mapCobranca cob), cache := t1.cache
                tokenExchanges := t0.exchanges ++ t1.exchanges
                chargeAttempts := [attempt0, attempt1] }
            | .err _ detail2 =>
              { result := .error ("Falha ao criar cobrança PIX (após retry): " ++ detail2)
                cache := t1.cache
                tokenExchanges := t0.exchanges ++ t1.exchanges
                chargeAttempts := [attempt0, attempt1] }
        else
          { result := .error ("Falha ao criar cobrança PIX: " ++ detail)
            cache := t0.cache
            tokenExchanges := t0.exchanges, chargeAttempts := [attempt0] }
    else
      { result := .error "Certificados não configurados para esta empresa"
        cache := t0.cache
        tokenExchanges := t0.exchanges, chargeAttempts := [] }

/-- `criarPixVencimento(empresaConfig, dados)`: token, inline-base64
certificates only, one PUT to `/pix/v2/cobv/{txid}`; any thrown error —
including a 401 — is surfaced immediately with the charge-failure message,
with no retry. -/
def criarPixVencimento (env : Env) (tokenBank : Nat → TokenExchangeReq → TokenResp)
    (chargeBank : Nat → ChargeAttempt → HttpResp) (txid : String)
    (cache : TokenCache) (cfg : EmpresaConfig) (dados : DadosPix) :
    ChargeOutcome PixResult :=
  let t0 := getAccessToken env (tokenBank 0) cache cfg
  match t0.result with
  | .error e =>
    { result := .error e, cache := t0.cache
      tokenExchanges := t0.exchanges, chargeAttempts := [] }
  | .ok accessToken =>
    if truthyS cfg.certBase64 && truthyS cfg.keyBase64 then
      let certContent : CertInput := .buffer (.fromBase64 (cfg.certBase64.getD ""))
      let keyContent : CertInput := .buffer (.fromBase64 (cfg.keyBase64.getD ""))
      let httpsAgent := createHttpsAgent certContent keyContent
      let url := getBaseUrl env.svc cfg.sandbox ++ "/pix/v2/cobv/" ++ txid
      let payload := montarPayloadVencimento cfg dados
      let attempt0 : ChargeAttempt :=
        { url := url, body := .vencimento payload, token := accessToken, agent := httpsAgent }
      match chargeBank 0 attempt0 with
      | .ok cob =>
        { result := .ok (mapCobrancaVencimento cob), cache := t0.cache
          tokenExchanges := t0.exchanges, chargeAttempts := [attempt0] }
      | .err _ detail =>
        { result := .error ("Falha ao criar cobrança PIX: " ++ detail)
          cache := t0.cache
          tokenExchanges := t0.exchanges, chargeAttempts := [attempt0] }
    else
      { result := .error "Certificados não configurados para esta empresa"
        cache := t0.cache
        tokenExchanges := t0.exchanges, chargeAttempts := [] }

/-- Internal status mapping of `consultarPix`: `CONCLUIDA` → `paga`, the
two removal statuses → `cancelada`, anything else → `pendente`. -/
def mapStatus (s : String) : String :=
  if s = "CONCLUIDA" then "paga"
  else if s = "REMOVIDA_PELO_USUARIO_RECEBEDOR" then "cancelada"
  else if s = "REMOVIDA_PELO_PSP" then "cancelada"
  else "pendente"

/-- The object returned by `consultarPix`. -/
structure ConsultaResult where
  txid : String
  status : String
  statusOriginal : String
  valor : Option String
  pix : List String
deriving DecidableEq, Repr

/-- `consultarPix(empresaConfig, txid, tipo)`: token, inline-base64
certificates only, one GET of `/pix/v2/{cob|cobv}/{txid}`; maps the native
status to the internal one; any thrown error — including a 401 — is
surfaced immediately with the query-failure message, with no retry. -/
def consultarPix (env : Env) (tokenBank : Nat → TokenExchangeReq → TokenResp)
    (chargeBank : Nat → ChargeAttempt → HttpResp)
    (cache : TokenCache) (cfg : EmpresaConfig) (txid : String) (tipo : String) :
    ChargeOutcome ConsultaResult :=
  let t0 := getAccessToken env (tokenBank 0) cache cfg
  match t0.result with
  | .error e =>
    { result := .error e, cache := t0.cache
      tokenExchanges := t0.exchanges, chargeAttempts := [] }
  | .ok accessToken =>
    if truthyS cfg.certBase64 && truthyS cfg.keyBase64 then
      let certContent : CertInput := .buffer (.fromBase64 (cfg.certBase64.getD ""))
      let keyContent : CertInput := .buffer (.fromBase64 (cfg.keyBase64.getD ""))
      let httpsAgent := createHttpsAgent certContent keyContent
      let endpoint := if tipo = "cobv" then "cobv" else "cob"
      let url := getBaseUrl env.svc cfg.sandbox ++ "/pix/v2/" ++ endpoint ++ "/" ++ txid
      let attempt0 : ChargeAttempt :=
        { url := url, body := .nenhum, token := accessToken, agent := httpsAgent }
      match chargeBank 0 attempt0 with
      | .ok cob =>
        { result := .ok
            { txid := cob.txid
              status := mapStatus cob.status
              statusOriginal := cob.status
              valor := cob.valorOriginal
              pix := cob.pix.getD [] }
          cache := t0.cache
          tokenExchanges := t0.exchanges, chargeAttempts := [attempt0] }
      | .err _ detail =>
        { result := .error ("Falha ao consultar cobrança: " ++ detail)
          cache := t0.cache
          tokenExchanges := t0.exchanges, chargeAttempts := [attempt0] }
    else
      { result := .error "Certificados não configurados para esta empresa"
        cache := t0.cache
        tokenExchanges := t0.exchanges, chargeAttempts := [] }

/-! ### Concrete fixtures used for closed evaluations -/

/-- A concrete invertible stand-in for the external AES primitive: the key
is prepended on encryption and dropped on decryption. -/
def cryptoX : Crypto :=
  { aesEncrypt := fun k x => k ++ x
    aesDecrypt := fun k s => some (String.mk (List.drop k.length s.data)) }

/-- An encryption service with a configured key. -/
def svcEncX : EncryptionService := { key := some "K" }

/-- A concrete environment with encryption disabled. -/
def envX : Env :=
  { crypto := cryptoX
    enc := { key := none }
    svc := { baseUrlSandbox := "https://sandbox.example"
             baseUrlProduction := "https://prod.example" }
    fs := fun _ => "PEMDATA"
    now := 1000 }

/-- A concrete environment with encryption enabled (key "K"). -/
def envEncX : Env :=
  { crypto := cryptoX
    enc := svcEncX
    svc := { baseUrlSandbox := "https://sandbox.example"
             baseUrlProduction := "https://prod.example" }
    fs := fun _ => "PEMDATA"
    now := 1000 }

/-- A tenant with inline base64 certificates. -/
def cfgX : EmpresaConfig :=
  { id := "empresa1", clientId := " cid ", clientSecret := "sec"
    chavePix := "chave@pix", sandbox := true
    certBase64 := some "CERT64", keyBase64 := some "KEY64"
    certPath := none, keyPath := none }

/-- A tenant configured only with local certificate file paths. -/
def cfgPaths : EmpresaConfig :=
  { id := "empresa2", clientId := "cid2", clientSecret := "sec2"
    chavePix := "chave2", sandbox := true
    certBase64 := none, keyBase64 := none
    certPath := some "certs/cert.crt", keyPath := some "certs/cert.key" }

/-- A tenant with encrypted credentials and inline certificates. -/
def cfgEncX : EmpresaConfig :=
  { id := "empresa3", clientId := "K cid ", clientSecret := "Ksec"
    chavePix := "pk", sandbox := true
    certBase64 := some "C64", keyBase64 := some "K64"
    certPath := none, keyPath := none }

/-- A tenant with no certificate material at all. -/
def cfgNoCert : EmpresaConfig :=
  { id := "empresa4", clientId := "cid4", clientSecret := "sec4"
    chavePix := "pk4", sandbox := true
    certBase64 := none, keyBase64 := none
    certPath := none, keyPath := none }

/-- A valid cached token for `cfgX` (valid at `envX.now = 1000`). -/
def entryX : CachedToken := { accessToken := "tokCached", expiresAt := 5000 }

/-- A cache holding only `cfgX`'s token. -/
def cacheX : TokenCache := [("empresa1", entryX)]

/-- A concrete charge request with a CPF payer. -/
def dadosX : DadosPix :=
  { valor := 50, expiracao := none
    pagador := { nome := "Ana", cpf := some "111.222.333-44", cnpj := none, endereco := none }
    descricao := none, vencimento := some "2026-01-01", diasAposVencimento := none }

/-- A concrete charge request carrying a CNPJ. -/
def dadosCnpjX : DadosPix :=
  { valor := 50, expiracao := none
    pagador := { nome := "Loja", cpf := some "111.222.333-44"
                 cnpj := some "12.345.678/0001-95", endereco := none }
    descricao := none, vencimento := some "2026-01-01", diasAposVencimento := none }

/-- A token endpoint that always succeeds. -/
def tokenBankX : Nat → TokenExchangeReq → TokenResp := fun _ _ => .success "tokFresh" 3600

/-- A charge endpoint that always answers HTTP 401. -/
def chargeBank401 : Nat → ChargeAttempt → HttpResp := fun _ _ => .err (some 401) "invalid token"

/-- A concrete successful charge-API response body. -/
def cobX : CobrancaResp :=
  { txid := "tx1", status := "CONCLUIDA", pixCopiaECola := some "payload"
    imagemQrcode := none, valorOriginal := some "50.00"
    criacao := some "2026-01-01T00:00:00Z", expiracao := some 3600
    dataDeVencimento := none, pix := none }

/-- A charge endpoint that always succeeds with `cobX`. -/
def chargeBankOk : Nat → ChargeAttempt → HttpResp := fun _ _ => .ok cobX

/-- The token request `tokenRequest envX cfgX` resolves to. -/
def reqX : TokenExchangeReq :=
  { url := "https://sandbox.example/oauth/v2/token"
    client_id := "cid", client_secret := "sec"
    grant_type := "client_credentials", scope := "cob.write cob.read"
    agent := { cert := .fromBase64 "CERT64", key := .fromBase64 "KEY64"
               rejectUnauthorized := false, pfx := none } }

/-- The token request `tokenRequest envEncX cfgEncX` resolves to. -/
def reqEncX : TokenExchangeReq :=
  { url := "https://sandbox.example/oauth/v2/token"
    client_id := "cid", client_secret := "sec"
    grant_type := "client_credentials", scope := "cob.write cob.read"
    agent := { cert := .fromBase64 "C64", key := .fromBase64 "K64"
               rejectUnauthorized := false, pfx := none } }

/-! ### Helper lemmas about the token cache and the token paths -/

theorem cacheGet_set_self (m : TokenCache) (k : String) (v : CachedToken) :
    cacheGet (cacheSet m k v) k = some v := by
  simp [cacheGet, cacheSet, List.find?]

theorem find?_filter_ne (m : TokenCache) (k : String) :
    List.find? (fun p => p.1 == k) (List.filter (fun p => p.1 != k) m) = none := by
  induction m with
  | nil => rfl
  | cons p t ih =>
    rw [List.filter_cons]
    by_cases h : p.1 = k
    · have hbne : (p.1 != k) = false := by simp [bne, h]
      simp only [hbne, Bool.false_eq_true, if_false]
      exact ih
    · have h1 : (p.1 == k) = false := beq_eq_false_iff_ne.mpr h
      have hbne : (p.1 != k) = true := by simp [bne, h1]
      simp only [hbne, if_true]
      rw [List.find?_cons_of_neg _ (by simp [h1])]
      exact ih

theorem cacheGet_delete_self (m : TokenCache) (k : String) :
    cacheGet (cacheDelete m k) k = none := by
  simp [cacheGet, cacheDelete, find?_filter_ne]

theorem find?_filter_ne_other (m : TokenCache) (k k' : String) (h : k' ≠ k) :
    List.find? (fun p => p.1 == k') (List.filter (fun p => p.1 != k) m)
      = List.find? (fun p => p.1 == k') m := by
  induction m with
  | nil => rfl
  | cons p t ih =>
    rw [List.filter_cons]
    by_cases hp : p.1 = k
    · have h2 : (p.1 == k') = false := by
        rw [hp]
        exact beq_eq_false_iff_ne.mpr (Ne.symm h)
      have hbne : (p.1 != k) = false := by simp [bne, hp]
      simp only [hbne, Bool.false_eq_true, if_false]
      rw [ih, List.find?_cons_of_neg _ (by simp [h2])]
    · have h1 : (p.1 == k) = false := beq_eq_false_iff_ne.mpr hp
      have hbne : (p.1 != k) = true := by simp [bne, h1]
      simp only [hbne, if_true]
      by_cases hq : p.1 = k'
      · have h2 : (p.1 == k') = true := by rw [hq]; exact beq_self_eq_true k'
        rw [List.find?_cons_of_pos (p := fun q : String × CachedToken => q.1 == k') _ h2,
          List.find?_cons_of_pos (p := fun q : String × CachedToken => q.1 == k') _ h2]
      · have h2 : (p.1 == k') = false := beq_eq_false_iff_ne.mpr hq
        rw [List.find?_cons_of_neg _ (by simp [h2]), List.find?_cons_of_neg _ (by simp [h2])]
        exact ih

theorem cacheGet_delete_other (m : TokenCache) (k k' : String) (h : k' ≠ k) :
    cacheGet (cacheDelete m k) k' = cacheGet m k' := by
  simp only [cacheGet, cacheDelete]
  rw [find?_filter_ne_other m k k' h]

theorem cacheDelete_noop (m : TokenCache) (k : String) (h : cacheGet m k = none) :
    cacheDelete m k = m := by
  rw [cacheDelete, List.filter_eq_self]
  intro p hp
  have hfind : List.find? (fun p => p.1 == k) m = none := by
    simpa [cacheGet] using h
  have := List.find?_eq_none.mp hfind p hp
  simpa [bne] using this

theorem getAccessToken_hot (env : Env) (bank : TokenExchangeReq → TokenResp)
    (cache : TokenCache) (cfg : EmpresaConfig) (entry : CachedToken)
    (hget : cacheGet cache cfg.id = some entry) (hvalid : entry.expiresAt > env.now) :
    getAccessToken env bank cache cfg
      = { result := .ok entry.accessToken, cache := cache, exchanges := [] } := by
  unfold getAccessToken
  rw [hget]
  simp [hvalid]

theorem getAccessToken_none (env : Env) (bank : TokenExchangeReq → TokenResp)
    (cache : TokenCache) (cfg : EmpresaConfig)
    (hget : cacheGet cache cfg.id = none) :
    getAccessToken env bank cache cfg = tokenExchangeCore env bank cache cfg := by
  unfold getAccessToken
  rw [hget]

theorem getAccessToken_expired (env : Env) (bank : TokenExchangeReq → TokenResp)
    (cache : TokenCache) (cfg : EmpresaConfig) (entry : CachedToken)
    (hget : cacheGet cache cfg.id = some entry) (hvalid : ¬ entry.expiresAt > env.now) :
    getAccessToken env bank cache cfg = tokenExchangeCore env bank cache cfg := by
  unfold getAccessToken
  rw [hget]
  simp [hvalid]

theorem tokenExchangeCore_success (env : Env) (bank : TokenExchangeReq → TokenResp)
    (cache : TokenCache) (cfg : EmpresaConfig) (req : TokenExchangeReq)
    (t : String) (e : Int)
    (hreq : tokenRequest env cfg = .ok req) (hbank : bank req = .success t e) :
    tokenExchangeCore env bank cache cfg
      = { result := .ok t
          cache := cacheSet cache cfg.id
            { accessToken := t, expiresAt := env.now + (e - 60) * 1000 }
          exchanges := [req] } := by
  unfold tokenExchangeCore
  simp only [hreq, hbank]

theorem tokenExchangeCore_failure (env : Env) (bank : TokenExchangeReq → TokenResp)
    (cache : TokenCache) (cfg : EmpresaConfig) (req : TokenExchangeReq) (d : String)
    (hreq : tokenRequest env cfg = .ok req) (hbank : bank req = .failure d) :
    tokenExchangeCore env bank cache cfg
      = { result := .error ("Falha na autenticação com Banco Inter: " ++ d)
          cache := cache
          exchanges := [req] } := by
  unfold tokenExchangeCore
  simp only [hreq, hbank]

theorem tokenExchangeCore_noReq (env : Env) (bank : TokenExchangeReq → TokenResp)
    (cache : TokenCache) (cfg : EmpresaConfig) (m : String)
    (hreq : tokenRequest env cfg = .error m) :
    tokenExchangeCore env bank cache cfg
      = { result := .error ("Falha na autenticação com Banco Inter: " ++ m)
          cache := cache
          exchanges := [] } := by
  unfold tokenExchangeCore
  rw [hreq]

theorem tokenRequest_fields (env : Env) (cfg : EmpresaConfig) (req : TokenExchangeReq)
    (h : tokenRequest env cfg = .ok req) :
    req.client_id = jsTrim (decryptCredential env cfg.clientId)
    ∧ req.client_secret = jsTrim (decryptCredential env cfg.clientSecret)
    ∧ req.grant_type = "client_credentials"
    ∧ req.scope = "cob.write cob.read"
    ∧ req.url = getBaseUrl env.svc cfg.sandbox ++ "/oauth/v2/token" := by
  unfold tokenRequest at h
  by_cases h1 : (truthyS cfg.certBase64 && truthyS cfg.keyBase64) = true
  · simp only [h1, if_true] at h
    injection h with h
    subst h
    exact ⟨rfl, rfl, rfl, rfl, rfl⟩
  · by_cases h2 : (truthyS cfg.certPath && truthyS cfg.keyPath) = true
    · simp only [h1, h2, if_true, Bool.false_eq_true, if_false] at h
      injection h with h
      subst h
      exact ⟨rfl, rfl, rfl, rfl, rfl⟩
    · simp only [h1, h2, Bool.false_eq_true, if_false] at h
      cases h

theorem tokenExchangeCore_cache_on_error (env : Env) (bank : TokenExchangeReq → TokenResp)
    (cache : TokenCache) (cfg : EmpresaConfig) (e : String)
    (h : (tokenExchangeCore env bank cache cfg).result = .error e) :
    (tokenExchangeCore env bank cache cfg).cache = cache := by
  unfold tokenExchangeCore at h ⊢
  cases hr : tokenRequest env cfg with
  | error m => simp only [hr]
  | ok req =>
    cases hb : bank req with
    | success t ei =>
      rw [hr] at h
      simp only [hb] at h
      cases h
    | failure d => simp only [hr, hb]

/-! ### Claim theorems -/

/-- C2: if `getAccessToken` is called while a cached entry for the tenant
exists with `now < expiresAt`, it returns the cached `accessToken`
unchanged, performs no token exchange and leaves the cache untouched;
hence a second call right after returns the identical token, with at most
one exchange across both calls (here: zero). -/
theorem C2_cached_token_hot_path (env : Env) (bank : TokenExchangeReq → TokenResp)
    (cache : TokenCache) (cfg : EmpresaConfig) (entry : CachedToken)
    (hget : cacheGet cache cfg.id = some entry)
    (hvalid : env.now < entry.expiresAt) :
    (getAccessToken env bank cache cfg).result = .ok entry.accessToken
    ∧ (getAccessToken env bank cache cfg).exchanges = []
    ∧ (getAccessToken env bank cache cfg).cache = cache
    ∧ (getAccessToken env bank (getAccessToken env bank cache cfg).cache cfg).result
        = .ok entry.accessToken
    ∧ ((getAccessToken env bank cache cfg).exchanges
        ++ (getAccessToken env bank (getAccessToken env bank cache cfg).cache cfg).exchanges).length
        ≤ 1 := by
  have h := getAccessToken_hot env bank cache cfg entry hget hvalid
  simp [h]

/-- C2 witness: concrete hot-path call returning the cached token. -/
theorem C2_cached_token_hot_path_witness :
    (getAccessToken envX (tokenBankX 0) cacheX cfgX).result = .ok "tokCached"
    ∧ (getAccessToken envX (tokenBankX 0) cacheX cfgX).exchanges = [] := by
  have h := C2_cached_token_hot_path envX (tokenBankX 0) cacheX cfgX entryX rfl (by decide)
  exact ⟨h.1, h.2.1⟩

/-- C4: `limparCache tenantId` removes at most the entry keyed by that
tenant: it is a no-op when no entry exists, it never changes another
tenant's cache entry, and after it the next `getAccessToken` for that
tenant takes the exchange path (a fresh exchange) rather than the cache. -/
theorem C4_invalidate_frame (env : Env) (bank : TokenExchangeReq → TokenResp)
    (cache : TokenCache) (t1 t2 : String) (cfg : EmpresaConfig) :
    (cacheGet cache t1 = none → limparCache cache t1 = cache)
    ∧ (t1 ≠ t2 → cacheGet (limparCache cache t1) t2 = cacheGet cache t2)
    ∧ (cfg.id = t1 →
        getAccessToken env bank (limparCache cache t1) cfg
          = tokenExchangeCore env bank (limparCache cache t1) cfg) := by
  refine ⟨?_, ?_, ?_⟩
  · intro h
    simp only [limparCache]
    exact cacheDelete_noop cache t1 h
  · intro h
    simp only [limparCache]
    exact cacheGet_delete_other cache t1 t2 (Ne.symm h)
  · intro h
    apply getAccessToken_none
    rw [h]
    simp only [limparCache]
    exact cacheGet_delete_self cache t1

/-- C4 witness: concrete no-op eviction, frame preservation and
fresh-exchange path after eviction. -/
theorem C4_invalidate_frame_witness :
    limparCache cacheX "empresaZ" = cacheX
    ∧ cacheGet (limparCache cacheX "empresa1") "empresaZ" = cacheGet cacheX "empresaZ"
    ∧ getAccessToken envX (tokenBankX 0) (limparCache cacheX "empresa1") cfgX
        = tokenExchangeCore envX (tokenBankX 0) (limparCache cacheX "empresa1") cfgX := by
  refine ⟨?_, ?_, ?_⟩
  · exact (C4_invalidate_frame envX (tokenBankX 0) cacheX "empresaZ" "other" cfgX).1 rfl
  · exact (C4_invalidate_frame envX (tokenBankX 0) cacheX "empresa1" "empresaZ" cfgX).2.1
      (by decide)
  · exact (C4_invalidate_frame envX (tokenBankX 0) cacheX "empresa1" "other" cfgX).2.2 rfl

/-- C10: if the token exchange fails (the call returns the thrown error),
the token cache is exactly the one passed in — no entry added, removed or
modified for any tenant. -/
theorem C10_failed_exchange_preserves_cache (env : Env) (bank : TokenExchangeReq → TokenResp)
    (cache : TokenCache) (cfg : EmpresaConfig) (e : String)
    (h : (getAccessToken env bank cache cfg).result = .error e) :
    (getAccessToken env bank cache cfg).cache = cache := by
  cases hg : cacheGet cache cfg.id with
  | some entry =>
    by_cases hv : entry.expiresAt > env.now
    · rw [getAccessToken_hot env bank cache cfg entry hg hv] at h
      cases h
    · rw [getAccessToken_expired env bank cache cfg entry hg hv] at h ⊢
      exact tokenExchangeCore_cache_on_error env bank cache cfg e h
  | none =>
    rw [getAccessToken_none env bank cache cfg hg] at h ⊢
    exact tokenExchangeCore_cache_on_error env bank cache cfg e h

/-- C10 witness: a concrete failing exchange (no certificates configured)
leaves the empty cache empty. -/
theorem C10_failed_exchange_preserves_cache_witness :
    (getAccessToken envX (tokenBankX 0) ([] : TokenCache) cfgNoCert).cache
      = ([] : TokenCache) := by
  exact C10_failed_exchange_preserves_cache envX (tokenBankX 0) [] cfgNoCert
    "Falha na autenticação com Banco Inter: Certificados não configurados para esta empresa" rfl

/-- C6: when a key is configured and the AES primitive round-trips on a
non-empty string `x`, `decrypt (encrypt x)` recovers `x`; when no key is
configured, both `encrypt` and `decrypt` are the identity passthrough. -/
theorem C6_encryption_roundtrip (c : Crypto) (svc : EncryptionService) (x : String) :
    (∀ k, svc.key = some k → x.isEmpty = false →
        c.aesDecrypt k (c.aesEncrypt k x) = some x →
        EncryptionService.decrypt c svc (EncryptionService.encrypt c svc x) = some x)
    ∧ (svc.key = none →
        EncryptionService.encrypt c svc x = x
        ∧ EncryptionService.decrypt c svc x = some x) := by
  constructor
  · intro k hk _ hround
    unfold EncryptionService.encrypt EncryptionService.decrypt
    rw [hk]
    simp only [hround]
  · intro hk
    unfold EncryptionService.encrypt EncryptionService.decrypt
    rw [hk]
    exact ⟨rfl, rfl⟩

/-- C6 witness: concrete round-trip with key "K" on "abc", and concrete
passthrough with no key on "xy". -/
theorem C6_encryption_roundtrip_witness :
    EncryptionService.decrypt cryptoX svcEncX (EncryptionService.encrypt cryptoX svcEncX "abc")
      = some "abc"
    ∧ EncryptionService.encrypt cryptoX { key := none } "xy" = "xy"
    ∧ EncryptionService.decrypt cryptoX { key := none } "xy" = some "xy" := by
  refine ⟨(C6_encryption_roundtrip cryptoX svcEncX "abc").1 "K" rfl rfl (by decide), ?_, ?_⟩
  · exact ((C6_encryption_roundtrip cryptoX { key := none } "xy").2 rfl).1
  · exact ((C6_encryption_roundtrip cryptoX { key := none } "xy").2 rfl).2

/-- C9 counterexample: no input of `createHttpsAgent` ever yields strict
server-certificate validation — `rejectUnauthorized` is hard-coded `false`,
so no deployment-level toggle selects strict mode, contradicting the
claimed configurable strict-versus-permissive validation. -/
theorem C9_counterexample :
    ¬ ∃ certC keyC, (createHttpsAgent certC keyC).rejectUnauthorized = true := by
  rintro ⟨c, k, h⟩
  simp [createHttpsAgent] at h

/-- C9 amended: `createHttpsAgent` always builds a permissive transport
(`rejectUnauthorized = false`, hard-coded for proxied cloud environments,
no strict mode selectable), presenting the given client certificate and
key for mutual TLS and no pfx bundle. -/
theorem C9_amended_permissive_transport (certC keyC : CertInput) :
    (createHttpsAgent certC keyC).cert = toBuffer certC
    ∧ (createHttpsAgent certC keyC).key = toBuffer keyC
    ∧ (createHttpsAgent certC keyC).rejectUnauthorized = false
    ∧ (createHttpsAgent certC keyC).pfx = none :=
  ⟨rfl, rfl, rfl, rfl⟩

/-- C3: on a successful exchange, `getAccessToken` caches, under the
tenant's id, exactly the returned `access_token` with
`expiresAt = now + (expires_in - 60)` seconds (in millis) and returns that
token; and the transmitted `client_id` / `client_secret` are the decrypted
credential strings with surrounding whitespace trimmed. -/
theorem C3_exchange_stores_cache (env : Env) (bank : TokenExchangeReq → TokenResp)
    (cache : TokenCache) (cfg : EmpresaConfig) (req : TokenExchangeReq)
    (atok : String) (ein : Int) (di ds : String)
    (hmiss : cacheGet cache cfg.id = none
      ∨ ∃ entry, cacheGet cache cfg.id = some entry ∧ ¬ entry.expiresAt > env.now)
    (hreq : tokenRequest env cfg = .ok req)
    (hbank : bank req = .success atok ein)
    (hconf : env.enc.isConfigured = true)
    (hdi : EncryptionService.decrypt env.crypto env.enc cfg.clientId = some di)
    (hdine : di.isEmpty = false)
    (hds : EncryptionService.decrypt env.crypto env.enc cfg.clientSecret = some ds)
    (hdsne : ds.isEmpty = false) :
    (getAccessToken env bank cache cfg).result = .ok atok
    ∧ cacheGet (getAccessToken env bank cache cfg).cache cfg.id
        = some { accessToken := atok, expiresAt := env.now + (ein - 60) * 1000 }
    ∧ (getAccessToken env bank cache cfg).exchanges = [req]
    ∧ req.client_id = jsTrim di ∧ req.client_secret = jsTrim ds := by
  have hga : getAccessToken env bank cache cfg = tokenExchangeCore env bank cache cfg := by
    rcases hmiss with h | ⟨entry, hg, hv⟩
    · exact getAccessToken_none env bank cache cfg h
    · exact getAccessToken_expired env bank cache cfg entry hg hv
  have hcore := tokenExchangeCore_success env bank cache cfg req atok ein hreq hbank
  have hfields := tokenRequest_fields env cfg req hreq
  have hdc1 : decryptCredential env cfg.clientId = di := by
    unfold decryptCredential
    rw [hconf]
    simp [hdi, hdine]
  have hdc2 : decryptCredential env cfg.clientSecret = ds := by
    unfold decryptCredential
    rw [hconf]
    simp [hds, hdsne]
  rw [hga, hcore]
  refine ⟨rfl, cacheGet_set_self cache cfg.id _, rfl, ?_, ?_⟩
  · rw [hfields.1, hdc1]
  · rw [hfields.2.1, hdc2]

/-- C3 witness: concrete successful exchange with encrypted credentials
"K cid " / "Ksec" (key "K"), stored and returned as specified. -/
theorem C3_exchange_stores_cache_witness :
    (getAccessToken envEncX (tokenBankX 0) ([] : TokenCache) cfgEncX).result = .ok "tokFresh"
    ∧ cacheGet (getAccessToken envEncX (tokenBankX 0) ([] : TokenCache) cfgEncX).cache "empresa3"
        = some { accessToken := "tokFresh", expiresAt := 1000 + (3600 - 60) * 1000 }
    ∧ reqEncX.client_id = jsTrim " cid " ∧ reqEncX.client_secret = jsTrim "sec" := by
  have h := C3_exchange_stores_cache envEncX (tokenBankX 0) [] cfgEncX reqEncX
    "tokFresh" 3600 " cid " "sec" (Or.inl rfl) rfl rfl rfl rfl rfl rfl rfl
  exact ⟨h.1, h.2.1, h.2.2.2.1, h.2.2.2.2⟩

/-- C7: a successful `consultarPix` maps the bank's native status through
the internal mapping: `CONCLUIDA` → paid (`paga`), the two removal statuses
→ cancelled (`cancelada`), and any other native value → pending
(`pendente`) rather than failing; the returned object carries the mapped
status next to the original one. -/
theorem C7_status_mapping (env : Env) (tokenBank : Nat → TokenExchangeReq → TokenResp)
    (chargeBank : Nat → ChargeAttempt → HttpResp) (cache : TokenCache)
    (cfg : EmpresaConfig) (txid tipo tok : String) (cob : CobrancaResp)
    (htok : (getAccessToken env (tokenBank 0) cache cfg).result = .ok tok)
    (hcert : truthyS cfg.certBase64 = true) (hkey : truthyS cfg.keyBase64 = true)
    (hok : ∀ a, chargeBank 0 a = .ok cob) :
    (∃ r, (consultarPix env tokenBank chargeBank cache cfg txid tipo).result = .ok r
        ∧ r.status = mapStatus cob.status ∧ r.statusOriginal = cob.status)
    ∧ mapStatus "CONCLUIDA" = "paga"
    ∧ mapStatus "REMOVIDA_PELO_USUARIO_RECEBEDOR" = "cancelada"
    ∧ mapStatus "REMOVIDA_PELO_PSP" = "cancelada"
    ∧ ∀ s, s ≠ "CONCLUIDA" → s ≠ "REMOVIDA_PELO_USUARIO_RECEBEDOR" → s ≠ "REMOVIDA_PELO_PSP" →
        mapStatus s = "pendente" := by
  refine ⟨?_, rfl, rfl, rfl, ?_⟩
  · unfold consultarPix
    simp only [htok, hcert, hkey, hok, Bool.and_self, if_true]
    exact ⟨_, rfl, rfl, rfl⟩
  · intro s h1 h2 h3
    unfold mapStatus
    rw [if_neg h1, if_neg h2, if_neg h3]

/-- C7 witness: concrete query mapping the native `CONCLUIDA` to `paga`. -/
theorem C7_status_mapping_witness :
    ∃ r, (consultarPix envX tokenBankX chargeBankOk cacheX cfgX "tx1" "cob").result = .ok r
      ∧ r.status = mapStatus cobX.status ∧ r.statusOriginal = cobX.status := by
  exact (C7_status_mapping envX tokenBankX chargeBankOk cacheX cfgX "tx1" "cob" "tokCached"
    cobX rfl rfl rfl (fun _ => rfl)).1

/-- C8: in both charge payloads, the debtor tax id is stripped of every
non-digit character (e.g. `"123.456.789-00"` → `"12345678900"`), and when
the request carries a (non-empty) CNPJ the payload carries the CNPJ field
and no CPF field. -/
theorem C8_tax_id_normalization (cfg : EmpresaConfig) (dados : DadosPix) (s : String) :
    stripNonDigits "123.456.789-00" = "12345678900"
    ∧ (∀ ch ∈ (stripNonDigits s).data, ch.isDigit = true)
    ∧ (∀ c, dados.pagador.cnpj = some c → c.isEmpty = false →
        (montarPayloadImediato cfg dados).devedor.cnpj = some (stripNonDigits c)
        ∧ (montarPayloadImediato cfg dados).devedor.cpf = none
        ∧ (montarPayloadVencimento cfg dados).devedor.cnpj = some (stripNonDigits c)
        ∧ (montarPayloadVencimento cfg dados).devedor.cpf = none)
    ∧ (∀ p, dados.pagador.cpf = some p →
        (dados.pagador.cnpj = none ∨ dados.pagador.cnpj = some "") →
        (montarPayloadImediato cfg dados).devedor.cpf = some (stripNonDigits p)
        ∧ (montarPayloadVencimento cfg dados).devedor.cpf = some (stripNonDigits p)) := by
  refine ⟨by decide, ?_, ?_, ?_⟩
  · intro ch hch
    exact List.of_mem_filter hch
  · intro c hc hce
    unfold montarPayloadImediato montarPayloadVencimento montarDevedor
    simp [hc, hce]
  · intro p hp hn
    unfold montarPayloadImediato montarPayloadVencimento montarDevedor
    rcases hn with h | h <;>
      cases he : dados.pagador.endereco <;>
        simp [hp, h, he, show ("" : String).isEmpty = true from rfl]

/-- C8 witness: concrete CNPJ request `"12.345.678/0001-95"` produces a
payload with the stripped CNPJ and no CPF field. -/
theorem C8_tax_id_normalization_witness :
    (montarPayloadImediato cfgX dadosCnpjX).devedor.cnpj = some "12345678000195"
    ∧ (montarPayloadImediato cfgX dadosCnpjX).devedor.cpf = none := by
  have h := (C8_tax_id_normalization cfgX dadosCnpjX "a1b2").2.2.1
    "12.345.678/0001-95" rfl rfl
  exact ⟨h.1.trans (by decide), h.2.1⟩

/-- C5 counterexample: for a tenant configured only with local certificate
file paths, `criarPixImediato` does not fall back to the files — it fails
with the missing-certificates error — and this failure happens after a
token exchange has already been sent over the network (one exchange in the
trace), contradicting both the claimed file-path fallback in every
operation and the claimed failure before any network call. -/
theorem C5_counterexample :
    (criarPixImediato envX tokenBankX chargeBank401 "tx2" ([] : TokenCache) cfgPaths
        dadosX).result = .error "Certificados não configurados para esta empresa"
    ∧ (criarPixImediato envX tokenBankX chargeBank401 "tx2" ([] : TokenCache) cfgPaths
        dadosX).tokenExchanges.length = 1
    ∧ (criarPixImediato envX tokenBankX chargeBank401 "tx2" ([] : TokenCache) cfgPaths
        dadosX).chargeAttempts = [] := by
  exact ⟨rfl, rfl, rfl⟩

/-- C5 amended: `getAccessToken` resolves certificates with the stated
priority — inline base64 pair first, then the tenant's local certificate
files, else it fails with the missing-certificates error before any network
call. The charge operations, however, accept only the inline base64 pair:
when it is absent they fail with the missing-certificates error even if
file paths are configured, and that failure occurs after the token
acquisition (which may itself have contacted the bank), though before any
charge-API call. -/
theorem C5_amended_cert_resolution (env : Env) (bank : TokenExchangeReq → TokenResp)
    (cache : TokenCache) (cfg : EmpresaConfig) :
    (truthyS cfg.certBase64 = true → truthyS cfg.keyBase64 = true →
      ∃ req, tokenRequest env cfg = .ok req
        ∧ req.agent.cert = .fromBase64 (cfg.certBase64.getD "")
        ∧ req.agent.key = .fromBase64 (cfg.keyBase64.getD ""))
    ∧ (¬(truthyS cfg.certBase64 = true ∧ truthyS cfg.keyBase64 = true) →
       truthyS cfg.certPath = true → truthyS cfg.keyPath = true →
      ∃ req, tokenRequest env cfg = .ok req
        ∧ req.agent.cert = .fromUtf8 (env.fs ("certs/" ++ cfg.id ++ "/cert.crt"))
        ∧ req.agent.key = .fromUtf8 (env.fs ("certs/" ++ cfg.id ++ "/cert.key")))
    ∧ (¬(truthyS cfg.certBase64 = true ∧ truthyS cfg.keyBase64 = true) →
       ¬(truthyS cfg.certPath = true ∧ truthyS cfg.keyPath = true) →
      (tokenExchangeCore env bank cache cfg).result
          = .error
            "Falha na autenticação com Banco Inter: Certificados não configurados para esta empresa"
      ∧ (tokenExchangeCore env bank cache cfg).exchanges = [])
    ∧ (¬(truthyS cfg.certBase64 = true ∧ truthyS cfg.keyBase64 = true) →
      ∀ (tokenBank : Nat → TokenExchangeReq → TokenResp)
        (chargeBank : Nat → ChargeAttempt → HttpResp) (txid : String) (dados : DadosPix)
        (tok : String),
      (getAccessToken env (tokenBank 0) cache cfg).result = .ok tok →
      (criarPixImediato env tokenBank chargeBank txid cache cfg dados).result
          = .error "Certificados não configurados para esta empresa"
      ∧ (criarPixImediato env tokenBank chargeBank txid cache cfg dados).chargeAttempts
          = []
      ∧ (criarPixVencimento env tokenBank chargeBank txid cache cfg dados).result
          = .error "Certificados não configurados para esta empresa"
      ∧ (criarPixVencimento env tokenBank chargeBank txid cache cfg dados).chargeAttempts
          = []
      ∧ ∀ tipo,
          (consultarPix env tokenBank chargeBank cache cfg txid tipo).result
            = .error "Certificados não configurados para esta empresa"
          ∧ (consultarPix env tokenBank chargeBank cache cfg txid tipo).chargeAttempts
            = []) := by
  refine ⟨?_, ?_, ?_, ?_⟩
  · intro h1 h2
    have h : tokenRequest env cfg
        = .ok { url := getBaseUrl env.svc cfg.sandbox ++ "/oauth/v2/token"
                client_id := jsTrim (decryptCredential env cfg.clientId)
                client_secret := jsTrim (decryptCredential env cfg.clientSecret)
                grant_type := "client_credentials"
                scope := "cob.write cob.read"
                agent := createHttpsAgent (.buffer (.fromBase64 (cfg.certBase64.getD "")))
                    (.buffer (.fromBase64 (cfg.keyBase64.getD ""))) } := by
      unfold tokenRequest
      simp only [h1, h2, Bool.and_self, if_true]
    exact ⟨_, h, rfl, rfl⟩
  · intro hn h3 h4
    have hb : (truthyS cfg.certBase64 && truthyS cfg.keyBase64) = false := by
      cases hc : truthyS cfg.certBase64 <;> cases hk : truthyS cfg.keyBase64 <;> simp_all
    have h : tokenRequest env cfg
        = .ok { url := getBaseUrl env.svc cfg.sandbox ++ "/oauth/v2/token"
                client_id := jsTrim (decryptCredential env cfg.clientId)
                client_secret := jsTrim (decryptCredential env cfg.clientSecret)
                grant_type := "client_credentials"
                scope := "cob.write cob.read"
                agent := createHttpsAgent
                    (.str (env.fs ("certs/" ++ cfg.id ++ "/cert.crt")))
                    (.str (env.fs ("certs/" ++ cfg.id ++ "/cert.key"))) } := by
      unfold tokenRequest
      simp only [hb, Bool.false_eq_true, if_false, h3, h4, Bool.and_self, if_true]
    exact ⟨_, h, rfl, rfl⟩
  · intro hn hp
    have hb : (truthyS cfg.certBase64 && truthyS cfg.keyBase64) = false := by
      cases hc : truthyS cfg.certBase64 <;> cases hk : truthyS cfg.keyBase64 <;> simp_all
    have hb2 : (truthyS cfg.certPath && truthyS cfg.keyPath) = false := by
      cases hc : truthyS cfg.certPath <;> cases hk : truthyS cfg.keyPath <;> simp_all
    have hr : tokenRequest env cfg = .error "Certificados não configurados para esta empresa" := by
      unfold tokenRequest
      simp only [hb, hb2, Bool.false_eq_true, if_false]
    rw [tokenExchangeCore_noReq env bank cache cfg _ hr]
    refine ⟨?_, ?_⟩ <;> simp
  · intro hn tokenBank chargeBank txid dados tok htok
    have hb : (truthyS cfg.certBase64 && truthyS cfg.keyBase64) = false := by
      cases hc : truthyS cfg.certBase64 <;> cases hk : truthyS cfg.keyBase64 <;> simp_all
    refine ⟨?_, ?_, ?_, ?_, ?_⟩
    · unfold criarPixImediato
      simp [htok, hb]
    · unfold criarPixImediato
      simp [htok, hb]
    · unfold criarPixVencimento
      simp [htok, hb]
    · unfold criarPixVencimento
      simp [htok, hb]
    · intro tipo
      unfold consultarPix
      simp only [htok, hb, Bool.false_eq_true, if_false]
      refine ⟨?_, ?_⟩ <;> simp

/-- C5 amended witness: concrete tenant with only file paths — all three
charge operations fail with the missing-certificates error after the token
was obtained. -/
theorem C5_amended_cert_resolution_witness :
    (criarPixImediato envX tokenBankX chargeBank401 "tx3" ([] : TokenCache) cfgPaths
        dadosX).result = .error "Certificados não configurados para esta empresa"
    ∧ (criarPixVencimento envX tokenBankX chargeBank401 "tx3" ([] : TokenCache) cfgPaths
        dadosX).result = .error "Certificados não configurados para esta empresa"
    ∧ (consultarPix envX tokenBankX chargeBank401 ([] : TokenCache) cfgPaths "tx3"
        "cob").result = .error "Certificados não configurados para esta empresa" := by
  have h := (C5_amended_cert_resolution envX (tokenBankX 0) [] cfgPaths).2.2.2 (by decide)
    tokenBankX chargeBank401 "tx3" dadosX "tokFresh" rfl
  exact ⟨h.1, h.2.2.1, (h.2.2.2.2 "cob").1⟩

/-- C1 counterexample: with a valid cached token and the bank answering
HTTP 401, `criarPixVencimento` issues exactly one charge request, acquires
no fresh token, and surfaces the failure directly — the claimed
invalidate-and-retry-once behaviour does not exist for this operation. -/
theorem C1_counterexample :
    (criarPixVencimento envX tokenBankX chargeBank401 "tx1" cacheX cfgX
        dadosX).chargeAttempts.length = 1
    ∧ (criarPixVencimento envX tokenBankX chargeBank401 "tx1" cacheX cfgX
        dadosX).tokenExchanges = []
    ∧ (criarPixVencimento envX tokenBankX chargeBank401 "tx1" cacheX cfgX
        dadosX).result = .error "Falha ao criar cobrança PIX: invalid token" := by
  exact ⟨rfl, rfl, rfl⟩

/-- C1 amended: with a valid cached token, when the bank responds 401 to
the charge call, `criarPixImediato` evicts the cached token, acquires a
fresh token exactly once and retries the identical request (same URL, body
and agent, new token) exactly once, surfacing a second failure with the
após-retry error and retrying no further; `criarPixVencimento` and
`consultarPix` perform no retry and no fresh exchange — the 401 is
surfaced immediately as the charge-creation / query failure. -/
theorem C1_amended_401_retry (env : Env) (tokenBank : Nat → TokenExchangeReq → TokenResp)
    (chargeBank : Nat → ChargeAttempt → HttpResp) (txid : String)
    (cache : TokenCache) (cfg : EmpresaConfig) (dados : DadosPix) (tipo : String)
    (entry : CachedToken) (d1 : String) (req : TokenExchangeReq)
    (tok2 : String) (ein2 : Int) (s2 : Option Int) (d2 : String)
    (hget : cacheGet cache cfg.id = some entry)
    (hvalid : entry.expiresAt > env.now)
    (hcert : truthyS cfg.certBase64 = true) (hkey : truthyS cfg.keyBase64 = true)
    (h401 : ∀ a, chargeBank 0 a = .err (some 401) d1)
    (hreq : tokenRequest env cfg = .ok req)
    (htok2 : ∀ r, tokenBank 1 r = .success tok2 ein2)
    (hfail2 : ∀ a, chargeBank 1 a = .err s2 d2) :
    ((∃ a0, (criarPixImediato env tokenBank chargeBank txid cache cfg dados).chargeAttempts
        = [a0, { a0 with token := tok2 }]
      ∧ a0.token = entry.accessToken)
     ∧ (criarPixImediato env tokenBank chargeBank txid cache cfg dados).result
        = .error ("Falha ao criar cobrança PIX (após retry): " ++ d2)
     ∧ (criarPixImediato env tokenBank chargeBank txid cache cfg dados).tokenExchanges = [req])
    ∧ ((criarPixVencimento env tokenBank chargeBank txid cache cfg dados).result
        = .error ("Falha ao criar cobrança PIX: " ++ d1)
     ∧ (criarPixVencimento env tokenBank chargeBank txid cache cfg dados).chargeAttempts.length
        = 1
     ∧ (criarPixVencimento env tokenBank chargeBank txid cache cfg dados).tokenExchanges = [])
    ∧ ((consultarPix env tokenBank chargeBank cache cfg txid tipo).result
        = .error ("Falha ao consultar cobrança: " ++ d1)
     ∧ (consultarPix env tokenBank chargeBank cache cfg txid tipo).chargeAttempts.length = 1
     ∧ (consultarPix env tokenBank chargeBank cache cfg txid tipo).tokenExchanges = []) := by
  have hhot : getAccessToken env (tokenBank 0) cache cfg
      = { result := .ok entry.accessToken, cache := cache, exchanges := [] } :=
    getAccessToken_hot env (tokenBank 0) cache cfg entry hget hvalid
  have hmiss : cacheGet (limparCache cache cfg.id) cfg.id = none := by
    simp only [limparCache]
    exact cacheGet_delete_self cache cfg.id
  have ht1 : getAccessToken env (tokenBank 1) (limparCache cache cfg.id) cfg
      = { result := .ok tok2
          cache := cacheSet (limparCache cache cfg.id) cfg.id
            { accessToken := tok2, expiresAt := env.now + (ein2 - 60) * 1000 }
          exchanges := [req] } := by
    rw [getAccessToken_none env (tokenBank 1) (limparCache cache cfg.id) cfg hmiss]
    exact tokenExchangeCore_success env (tokenBank 1) (limparCache cache cfg.id) cfg req
      tok2 ein2 hreq (htok2 req)
  refine ⟨⟨?_, ?_, ?_⟩, ⟨?_, ?_, ?_⟩, ⟨?_, ?_, ?_⟩⟩
  · unfold criarPixImediato
    simp only [hhot, hcert, hkey, Bool.and_self, if_true, h401]
    simp only [ht1, hfail2]
    exact ⟨_, rfl, rfl⟩
  · unfold criarPixImediato
    simp only [hhot, hcert, hkey, Bool.and_self, if_true, h401]
    simp only [ht1, hfail2]
  · unfold criarPixImediato
    simp only [hhot, hcert, hkey, Bool.and_self, if_true, h401]
    simp only [ht1, hfail2]
    all_goals rfl
  · unfold criarPixVencimento
    simp only [hhot, hcert, hkey, Bool.and_self, if_true, h401]
  · unfold criarPixVencimento
    simp only [hhot, hcert, hkey, Bool.and_self, if_true, h401]
    all_goals rfl
  · unfold criarPixVencimento
    simp only [hhot, hcert, hkey, Bool.and_self, if_true, h401]
  · unfold consultarPix
    simp only [hhot, hcert, hkey, Bool.and_self, if_true, h401]
  · unfold consultarPix
    simp only [hhot, hcert, hkey, Bool.and_self, if_true, h401]
    all_goals rfl
  · unfold consultarPix
    simp only [hhot, hcert, hkey, Bool.and_self, if_true, h401]

/-- C1 amended witness: concrete run where both charge attempts answer 401
— the immediate charge retries exactly once with the freshly exchanged
token and then surfaces the após-retry failure. -/
theorem C1_amended_401_retry_witness :
    (criarPixImediato envX tokenBankX chargeBank401 "tx1" cacheX cfgX dadosX).result
      = .error ("Falha ao criar cobrança PIX (após retry): " ++ "invalid token") := by
  exact (C1_amended_401_retry envX tokenBankX chargeBank401 "tx1" cacheX cfgX dadosX "cob"
    entryX "invalid token" reqX "tokFresh" 3600 (some 401) "invalid token"
    rfl (by decide) rfl rfl (fun _ => rfl) rfl (fun _ => rfl) (fun _ => rfl)).1.2.1

end Qualify
